import Mathlib

/-!
# Verification of the IdP server's token lifecycle core

A shallow embedding of the identity provider's refresh-token rotation and
OAuth2 authorization-code exchange logic, translated from
`app/auth/service.py`, `app/auth/persistence.py`, `app/sso/service.py`,
`app/sso/persistence.py` and `app/sso/client_service.py`.

Modelling conventions:
* Timestamps are natural numbers (seconds). `datetime.now(UTC)` is passed in
  as an explicit `now` parameter; `timedelta(days=d)` is `d * 86400` and
  `timedelta(minutes=m)` is `m * 60`.
* The SHA-256 digest used by `hash_token` and the composite
  `base64.urlsafe_b64encode(hashlib.sha256(v).digest()).rstrip("=")` pipeline
  used by the PKCE check are abstracted as explicit function parameters
  (`hashToken`, `s256` : `String → String`): the theorems hold for every
  digest function, and witnesses instantiate them concretely.
* The relational store backing `RefreshTokenRepositoryImpl` is a
  `List RefreshToken` in insertion order. The Redis store backing
  `AuthorizationCodeRepositoryImpl` is a `List AuthorizationCode`;
  `redis.delete` removes every entry under the key (key = the code string).
* Signed JWTs are modelled as records carrying their claims together with a
  `sigOk` flag standing for signature validity; `jose.jwt.decode` rejecting a
  bad signature or a past `exp` claim becomes an explicit check.
* Python truthiness on `str`/`Optional[str]` values (`if not user_id`,
  `if dto.redirect_uri`, ...) is modelled by comparing `Option.getD "" ≠ ""`.
* Fresh nondeterministic values (`uuid.uuid4()`, newly minted token strings)
  are passed in as parameters.
-/

namespace IdP

/-- Error taxonomy of `app/core/exceptions.py` as far as the services use it:
`BadRequestException`, `UnauthorizedException`, `NotFoundException`. -/
inductive AppError where
  | badRequest
  | unauthorized
  | notFound
deriving DecidableEq, Repr

/-- `app/auth/model.py` — the `refresh_tokens` row. `created_at` is never read
by the verified code paths and is omitted. -/
structure RefreshToken where
  id : String
  token_hash : String
  user_id : String
  family_id : String
  rotated_from : Option String
  expires_at : Nat
  revoked_at : Option Nat
deriving DecidableEq, Repr

/-- JWT as seen after `jose.jwt.decode`: the claims the services read, plus
the serialized string (`value`) and a signature-validity flag. -/
structure Jwt where
  value : String
  sub : Option String
  email : Option String
  client_id : Option String
  scope : Option String
  typ : String
  exp : Nat
  sigOk : Bool
deriving DecidableEq, Repr

/-- The fields of `app/config.py` the verified code reads. -/
structure Settings where
  refresh_token_expire_days : Nat
  access_token_expire_minutes : Nat
  issuer : String
deriving DecidableEq, Repr

/-- `app/auth/dto.py` — `TokenDto`. -/
structure TokenDto where
  access_token : String
  refresh_token : String
  token_type : String
deriving DecidableEq, Repr

/-! ## Refresh-token persistence (`app/auth/persistence.py`) -/

/-- `RefreshTokenRepositoryImpl.find_by_token_hash`: first row whose
`token_hash` matches and whose `revoked_at` is SQL NULL. Note the query does
not constrain `expires_at`. -/
def find_by_token_hash (db : List RefreshToken) (token_hash : String) :
    Option RefreshToken :=
  db.find? (fun r => r.token_hash == token_hash && r.revoked_at == none)

/-- `RefreshTokenRepositoryImpl.revoke_by_id`: select by primary key and set
`revoked_at = datetime.now(UTC)` unconditionally (the id is the primary key,
so the map touches at most the one matching row). -/
def revoke_by_id (db : List RefreshToken) (token_id : String) (now : Nat) :
    List RefreshToken :=
  db.map (fun r => if r.id == token_id then { r with revoked_at := some now } else r)

/-- `RefreshTokenRepositoryImpl.create`: insert and flush. -/
def createToken (db : List RefreshToken) (r : RefreshToken) : List RefreshToken :=
  db ++ [r]

/-- The database's `unique=True` index on `refresh_tokens.token_hash`. -/
def UniqueHashes (db : List RefreshToken) : Prop :=
  db.Pairwise (fun a b => a.token_hash ≠ b.token_hash)

/-! ## Token codec (`app/core/security.py`) -/

/-- `verify_token` = `decode_token` (signature + `exp` validation by
`jose.jwt.decode`, raising `UnauthorizedException`) followed by the
`type` claim check. -/
def verify_token (tok : Jwt) (token_type : String) (now : Nat) :
    Except AppError Jwt :=
  if tok.sigOk = false ∨ tok.exp ≤ now then .error .unauthorized
  else if tok.typ ≠ token_type then .error .unauthorized
  else .ok tok

/-! ## Auth service (`app/auth/service.py`) -/

/-- The part of `AuthService.refresh` up to and including the repository
lookup (lines 72–87): JWT verification, the `sub` truthiness check, and
`find_by_token_hash` on the SHA-256 of the presented token. Returns the
`(user_id, email, stored_token)` triple the rest of the method uses. -/
def refreshLookup (hashToken : String → String) (db : List RefreshToken)
    (tok : Jwt) (now : Nat) : Except AppError (String × String × RefreshToken) :=
  match verify_token tok "refresh" now with
  | .error e => .error e
  | .ok payload =>
    if payload.sub.getD "" = "" then .error .unauthorized
    else
      match find_by_token_hash db (hashToken tok.value) with
      | none => .error .unauthorized
      | some stored => .ok (payload.sub.getD "", payload.email.getD "", stored)

/-- The part of `AuthService.refresh` after the lookup (lines 89–118): the
expiry check on the stored row, `revoke_by_id`, and creation of the rotated
record in the same family with `rotated_from` = the old record's id.
`newId`/`newAccess`/`newRefreshValue` stand for `uuid.uuid4()` and the newly
minted token strings. -/
def refreshFinish (hashToken : String → String) (settings : Settings)
    (db : List RefreshToken) (user_id : String) (stored : RefreshToken)
    (now : Nat) (newId newAccess newRefreshValue : String) :
    List RefreshToken × Except AppError TokenDto :=
  if stored.expires_at < now then (db, .error .unauthorized)
  else
    let db1 := revoke_by_id db stored.id now
    let newRec : RefreshToken :=
      { id := newId
        token_hash := hashToken newRefreshValue
        user_id := user_id
        family_id := stored.family_id
        rotated_from := some stored.id
        expires_at := now + settings.refresh_token_expire_days * 86400
        revoked_at := none }
    (createToken db1 newRec, .ok ⟨newAccess, newRefreshValue, "bearer"⟩)

namespace AuthService

/-- `AuthService.refresh`, returning the refresh-token store state together
with the outcome; a raised exception leaves the store untouched. -/
def refresh (hashToken : String → String) (settings : Settings)
    (db : List RefreshToken) (tok : Jwt) (now : Nat)
    (newId newAccess newRefreshValue : String) :
    List RefreshToken × Except AppError TokenDto :=
  match refreshLookup hashToken db tok now with
  | .error e => (db, .error e)
  | .ok (user_id, _email, stored) =>
      refreshFinish hashToken settings db user_id stored now newId newAccess newRefreshValue

/-- The persistence effect of `AuthService.login` (lines 28–40) after
`authenticate_user` succeeded: mint a fresh family and store the root record
with `rotated_from = None`. -/
def login (hashToken : String → String) (settings : Settings)
    (db : List RefreshToken) (user_id : String)
    (newId family_id accessTok refreshValue : String) (now : Nat) :
    List RefreshToken × TokenDto :=
  let entity : RefreshToken :=
    { id := newId
      token_hash := hashToken refreshValue
      user_id := user_id
      family_id := family_id
      rotated_from := none
      expires_at := now + settings.refresh_token_expire_days * 86400
      revoked_at := none }
  (createToken db entity, ⟨accessTok, refreshValue, "bearer"⟩)

end AuthService

/-! ## SSO data model (`app/sso/model.py`) -/

/-- `ClientType` enum. -/
inductive ClientType where
  | confidential
  | public
deriving DecidableEq, Repr

/-- `oauth2_clients` row, restricted to the fields the verified paths read. -/
structure OAuth2Client where
  client_id : String
  client_secret : Option String
  client_type : ClientType
  redirect_uri : String
  scopes : String
  is_active : Bool
deriving DecidableEq, Repr

/-- `AuthorizationCode` as serialized into Redis by
`AuthorizationCodeRepositoryImpl._serialize`. -/
structure AuthorizationCode where
  id : String
  code : String
  client_id : String
  user_id : String
  redirect_uri : String
  scopes : String
  code_challenge : Option String
  code_challenge_method : Option String
  state : Option String
  expires_at : Nat
  is_used : Bool
deriving DecidableEq, Repr

/-- Modelled from the spec: the user-lookup capability (`app/user/service.py`
is not part of the verified sources; §1 treats it as an external collaborator
returning id/email/name and §4.5 reads `username`/`is_verified` for the
userinfo and ID-token claims). -/
structure User where
  id : String
  email : String
  username : Option String
  is_verified : Bool
deriving DecidableEq, Repr

/-- Modelled from the spec: `UserService.get_user_by_id` — look the user up,
`NotFound` when absent (§7: "`NotFound` (unknown client/user/...)"). -/
def get_user_by_id (users : List User) (user_id : String) : Except AppError User :=
  match users.find? (fun u => u.id == user_id) with
  | none => .error .notFound
  | some u => .ok u

/-! ## Authorization-code persistence (`app/sso/persistence.py`, Redis) -/

/-- `AuthorizationCodeRepositoryImpl.find_by_code`: `GET oauth:code:<code>`
and deserialize. Redis keys are unique, so the store holds at most one entry
per code; `find?` returns it. -/
def find_by_code (store : List AuthorizationCode) (code : String) :
    Option AuthorizationCode :=
  store.find? (fun c => c.code == code)

/-- `AuthorizationCodeRepositoryImpl.create`: `SETEX oauth:code:<code> ...`
overwrites any previous value under the same key. -/
def createCode (store : List AuthorizationCode) (c : AuthorizationCode) :
    List AuthorizationCode :=
  store.filter (fun x => x.code ≠ c.code) ++ [c]

/-- `AuthorizationCodeRepositoryImpl.mark_as_used`: `DELETE oauth:code:<code>`
— the entry under the code's key is removed outright. -/
def mark_as_used (store : List AuthorizationCode) (c : AuthorizationCode) :
    List AuthorizationCode :=
  store.filter (fun x => x.code ≠ c.code)

/-! ## Client service (`app/sso/client_service.py`) -/

/-- `ClientService.get_client_by_client_id`: `NotFound` when absent or
inactive. -/
def get_client_by_client_id (clients : List OAuth2Client) (client_id : String) :
    Except AppError OAuth2Client :=
  match clients.find? (fun c => c.client_id == client_id) with
  | none => .error .notFound
  | some c => if c.is_active = false then .error .notFound else .ok c

/-- `ClientService.verify_client_secret`: confidential clients must present
the matching secret (`if not client_secret or client.client_secret !=
client_secret`), public clients must present none (`if client_secret`);
Python truthiness makes the empty string count as absent. -/
def verify_client_secret (clients : List OAuth2Client) (client_id : String)
    (client_secret : Option String) : Except AppError OAuth2Client :=
  match get_client_by_client_id clients client_id with
  | .error e => .error e
  | .ok client =>
    match client.client_type with
    | .confidential =>
        if client_secret.getD "" = "" then .error .notFound
        else if client.client_secret ≠ some (client_secret.getD "") then .error .notFound
        else .ok client
    | .public =>
        if client_secret.getD "" ≠ "" then .error .notFound
        else .ok client

/-! ## SSO service (`app/sso/service.py`) -/

/-- `app/sso/dto.py` — `TokenRequestDto`. -/
structure TokenRequestDto where
  grant_type : String
  code : Option String
  redirect_uri : Option String
  client_id : String
  client_secret : Option String
  code_verifier : Option String
deriving DecidableEq, Repr

/-- The claims dict built by `SSOService._create_id_token` before
`jwt.encode`; `none` in an `Option` field means the key is absent from the
payload. -/
structure IdTokenClaims where
  iss : String
  sub : String
  aud : String
  exp : Nat
  iat : Nat
  email : Option String
  email_verified : Option Bool
  name : Option String
  preferred_username : Option String
deriving DecidableEq, Repr

/-- `app/sso/dto.py` — `TokenResponseDto`; the signed `id_token` string is
represented by its claims payload. -/
structure TokenResponseDto where
  access_token : String
  token_type : String
  expires_in : Nat
  refresh_token : Option String
  scope : Option String
  id_token : Option IdTokenClaims
deriving DecidableEq, Repr

/-- Does `pat` start `s`? (helper for the substring test below). -/
def listStarts : List Char → List Char → Bool
  | [], _ => true
  | _ :: _, [] => false
  | a :: as, b :: bs => a == b && listStarts as bs

/-- Is `pat` a contiguous substring of `s`? -/
def listContainsSub (pat : List Char) : List Char → Bool
  | [] => pat.isEmpty
  | c :: rest => listStarts pat (c :: rest) || listContainsSub pat rest

/-- Python's `pat in s` on strings: substring containment. The service uses
it with the nonempty literals `"openid"`, `"profile"`, `"email"`. -/
def strIn (pat s : String) : Bool :=
  listContainsSub pat.toList s.toList

/-- `SSOService._create_id_token`: `None` unless `"openid" in scopes`;
otherwise a payload carrying `iss`, `sub`, `aud = client_id`, `exp`, `iat`
and — unconditionally — `email`/`email_verified`; `name` and
`preferred_username` are added when `"profile" in scopes and user.username`;
the `"email" in scopes` branch re-assigns the already-present `email` key. -/
def create_id_token (settings : Settings) (user : User) (client : OAuth2Client)
    (scopes : String) (now : Nat) : Option IdTokenClaims :=
  if strIn "openid" scopes = false then none
  else
    let base : IdTokenClaims :=
      { iss := settings.issuer
        sub := user.id
        aud := client.client_id
        exp := now + settings.access_token_expire_minutes * 60
        iat := now
        email := some user.email
        email_verified := some user.is_verified
        name := none
        preferred_username := none }
    let withProfile :=
      if strIn "profile" scopes = true ∧ user.username.getD "" ≠ "" then
        { base with name := user.username, preferred_username := user.username }
      else base
    let withEmail :=
      if strIn "email" scopes = true then { withProfile with email := some user.email }
      else withProfile
    some withEmail

/-- Lines 108–115 of `app/sso/service.py`: the recomputed PKCE challenge —
the digest pipeline for method `S256`, the verifier itself otherwise
(`plain`). -/
def pkceChallenge (s256 : String → String) (method : Option String)
    (verifier : String) : String :=
  if method = some "S256" then s256 verifier else verifier

/-- The validation phase of `SSOService.exchange_code_for_tokens`
(lines 79–118), in source order: grant-type and code presence, client
verification, code lookup, expiry, single-use flag, client match, the
redirect-URI check guarded by the presented value's truthiness, and PKCE.
`s256` abstracts `base64.urlsafe_b64encode(hashlib.sha256(v.encode())
.digest()).decode().rstrip("=")`. -/
def exchangeValidate (s256 : String → String) (clients : List OAuth2Client)
    (codeStore : List AuthorizationCode) (dto : TokenRequestDto) (now : Nat) :
    Except AppError (OAuth2Client × AuthorizationCode) :=
  if dto.grant_type ≠ "authorization_code" then .error .badRequest
  else if dto.code.getD "" = "" then .error .badRequest
  else
    match verify_client_secret clients dto.client_id dto.client_secret with
    | .error e => .error e
    | .ok client =>
      match find_by_code codeStore (dto.code.getD "") with
      | none => .error .unauthorized
      | some auth_code =>
        if auth_code.expires_at < now then .error .unauthorized
        else if auth_code.is_used = true then .error .unauthorized
        else if auth_code.client_id ≠ dto.client_id then .error .unauthorized
        else if dto.redirect_uri.getD "" ≠ "" ∧ auth_code.redirect_uri ≠ dto.redirect_uri.getD ""
          then .error .badRequest
        else if auth_code.code_challenge.getD "" ≠ "" then
          if dto.code_verifier.getD "" = "" then .error .badRequest
          else if pkceChallenge s256 auth_code.code_challenge_method
              (dto.code_verifier.getD "") ≠ auth_code.code_challenge.getD "" then
            .error .unauthorized
          else .ok (client, auth_code)
        else .ok (client, auth_code)

/-- Fresh values minted during a successful exchange: the new refresh-token
row id and family id (`uuid.uuid4()`), and the newly signed access and
refresh token strings. -/
structure ExchangeFresh where
  refreshRecordId : String
  familyId : String
  accessTokenValue : String
  refreshTokenValue : String
deriving DecidableEq, Repr

namespace SSOService

/-- `SSOService.exchange_code_for_tokens`: validation, user lookup, new
refresh-token family persisted with `rotated_from = None`, the code deleted
from Redis by `mark_as_used`, and the response with the optional ID token.
Returns (code store, refresh-token store, outcome); a raised exception leaves
both stores untouched. -/
def exchange_code_for_tokens (hashToken s256 : String → String)
    (settings : Settings) (clients : List OAuth2Client) (users : List User)
    (codeStore : List AuthorizationCode) (refreshDb : List RefreshToken)
    (dto : TokenRequestDto) (now : Nat) (fresh : ExchangeFresh) :
    List AuthorizationCode × List RefreshToken × Except AppError TokenResponseDto :=
  match exchangeValidate s256 clients codeStore dto now with
  | .error e => (codeStore, refreshDb, .error e)
  | .ok (client, auth_code) =>
    match get_user_by_id users auth_code.user_id with
    | .error e => (codeStore, refreshDb, .error e)
    | .ok user =>
      let newRec : RefreshToken :=
        { id := fresh.refreshRecordId
          token_hash := hashToken fresh.refreshTokenValue
          user_id := user.id
          family_id := fresh.familyId
          rotated_from := none
          expires_at := now + settings.refresh_token_expire_days * 86400
          revoked_at := none }
      let refreshDb1 := createToken refreshDb newRec
      let codeStore1 := mark_as_used codeStore auth_code
      let id_token := create_id_token settings user client auth_code.scopes now
      (codeStore1, refreshDb1,
        .ok { access_token := fresh.accessTokenValue
              token_type := "Bearer"
              expires_in := settings.access_token_expire_minutes * 60
              refresh_token := some fresh.refreshTokenValue
              scope := some auth_code.scopes
              id_token := id_token })

end SSOService

/-! ## Concrete sample data used by witnesses and counterexamples -/

/-- A configuration instance with the repository's default-ish values. -/
def sampleSettings : Settings :=
  { refresh_token_expire_days := 7
    access_token_expire_minutes := 30
    issuer := "https://idp.example.com" }

/-- A concrete digest instance for witnesses (the theorems are quantified
over the digest function). -/
def idHash : String → String := fun s => s

def sampleUser : User :=
  { id := "u1", email := "u1@example.com", username := some "uone", is_verified := true }

def sampleClient : OAuth2Client :=
  { client_id := "client-1"
    client_secret := some "s3cret"
    client_type := .confidential
    redirect_uri := "https://app.example.com/cb"
    scopes := "openid profile email"
    is_active := true }

def sampleRec : RefreshToken :=
  { id := "a", token_hash := "h", user_id := "u1", family_id := "f"
    rotated_from := none, expires_at := 100, revoked_at := none }

def expiredRec : RefreshToken :=
  { id := "b", token_hash := "h5", user_id := "u1", family_id := "f"
    rotated_from := none, expires_at := 0, revoked_at := none }

/-- A refresh JWT as issued for `liveRec`'s raw token value `"tokv"`: valid
signature, type `refresh`, unexpired at the times used below. -/
def sampleTok : Jwt :=
  { value := "tokv", sub := some "u1", email := none, client_id := none
    scope := none, typ := "refresh", exp := 999, sigOk := true }

/-- An active stored refresh-token row for `sampleTok` (under the `idHash`
digest instance). -/
def liveRec : RefreshToken :=
  { id := "t0", token_hash := "tokv", user_id := "u1", family_id := "fam"
    rotated_from := none, expires_at := 1000, revoked_at := none }

/-! ## Shared helper lemmas -/

/-- Every error `verify_token` raises is `UnauthorizedException`. -/
theorem verify_token_error (tok : Jwt) (token_type : String) (now : Nat)
    (e : AppError) (h : verify_token tok token_type now = .error e) :
    e = .unauthorized := by
  unfold verify_token at h
  split at h
  · exact (Except.error.inj h).symm
  · split at h
    · exact (Except.error.inj h).symm
    · simp at h

/-- A record returned by `find_by_token_hash` matches the hash and is
unrevoked. -/
theorem find_by_token_hash_props (db : List RefreshToken) (token_hash : String)
    (r : RefreshToken) (hfind : find_by_token_hash db token_hash = some r) :
    r.token_hash = token_hash ∧ r.revoked_at = none := by
  have hp := List.find?_some hfind
  simp only [Bool.and_eq_true, beq_iff_eq] at hp
  exact hp

/-- If every record carrying the hash is revoked, the active-only lookup
finds nothing. -/
theorem find_by_token_hash_none (db : List RefreshToken) (token_hash : String)
    (h : ∀ r ∈ db, r.token_hash = token_hash → r.revoked_at ≠ none) :
    find_by_token_hash db token_hash = none := by
  apply List.find?_eq_none.mpr
  intro x hx
  simp only [Bool.and_eq_true, beq_iff_eq, not_and]
  exact fun hh hrev => h x hx hh hrev

/-- Under the unique index on `token_hash`, two stored records with the same
hash are the same record. -/
theorem uniqueHashes_eq {db : List RefreshToken} (hu : UniqueHashes db)
    {a b : RefreshToken} (ha : a ∈ db) (hb : b ∈ db)
    (hh : a.token_hash = b.token_hash) : a = b := by
  induction db with
  | nil => cases ha
  | cons x l ih =>
    rcases List.pairwise_cons.mp hu with ⟨hx, hl⟩
    rcases List.mem_cons.mp ha with rfl | ha' <;>
      rcases List.mem_cons.mp hb with rfl | hb'
    · rfl
    · exact absurd hh (hx b hb')
    · exact absurd hh.symm (hx a ha')
    · exact ih hl ha' hb'

/-- A successful `refresh` lookup phase returns exactly the record the
active-only hash lookup found. -/
theorem refreshLookup_ok_find (hashToken : String → String)
    (db : List RefreshToken) (tok : Jwt) (now : Nat) (u em : String)
    (stored : RefreshToken)
    (h : refreshLookup hashToken db tok now = .ok (u, em, stored)) :
    find_by_token_hash db (hashToken tok.value) = some stored := by
  unfold refreshLookup at h
  split at h
  · simp at h
  · split at h
    · simp at h
    · split at h
      · simp at h
      · next stored' hfind =>
          simp only [Except.ok.injEq, Prod.mk.injEq] at h
          rw [hfind, h.2.2]

/-- When the active-only hash lookup finds nothing, the lookup phase of
`refresh` fails with `Unauthorized` on every path. -/
theorem refreshLookup_of_find_none (hashToken : String → String)
    (db : List RefreshToken) (tok : Jwt) (now : Nat)
    (h : find_by_token_hash db (hashToken tok.value) = none) :
    refreshLookup hashToken db tok now = .error .unauthorized := by
  unfold refreshLookup
  split
  · next e hv => rw [verify_token_error _ _ _ _ hv]
  · split
    · rfl
    · rw [h]

/-! ## C1 — rejection of an already-rotated refresh token -/

/-- **C1.** Once a `refresh` call has succeeded on a token (revoking its
stored record), a second `refresh` presenting the same token value raises
`Unauthorized` and leaves the store unchanged — no new record is created.
`huniq` is the database's unique index on `token_hash`; `hfresh` says the
freshly minted replacement token hashes differently from the presented one
(guaranteed in the source by the fresh `jti` claim inside every minted
token). -/
theorem refresh_rejects_rotated_token (hashToken : String → String)
    (settings : Settings) (db db1 : List RefreshToken) (tok : Jwt)
    (dto : TokenDto) (now1 now2 : Nat)
    (newId newAccess newRefreshValue newId2 newAccess2 newRefreshValue2 : String)
    (huniq : UniqueHashes db)
    (hfresh : hashToken newRefreshValue ≠ hashToken tok.value)
    (h1 : AuthService.refresh hashToken settings db tok now1 newId newAccess newRefreshValue
          = (db1, .ok dto)) :
    AuthService.refresh hashToken settings db1 tok now2 newId2 newAccess2 newRefreshValue2
      = (db1, .error .unauthorized) := by
  unfold AuthService.refresh at h1
  split at h1
  · simp at h1
  · next u em stored hlook =>
    unfold refreshFinish at h1
    split at h1
    · simp at h1
    · simp only [Prod.mk.injEq] at h1
      have hfind := refreshLookup_ok_find _ _ _ _ _ _ _ hlook
      have hmem := List.mem_of_find?_eq_some hfind
      have hprops := find_by_token_hash_props _ _ _ hfind
      have hrevall : ∀ x ∈ db1, x.token_hash = hashToken tok.value →
          x.revoked_at ≠ none := by
        intro x hx hh
        rw [← h1.1] at hx
        unfold createToken at hx
        rcases List.mem_append.mp hx with hx' | hx'
        · unfold revoke_by_id at hx'
          obtain ⟨y, hy, rfl⟩ := List.mem_map.mp hx'
          by_cases hid : y.id == stored.id
          · simp [hid]
          · simp only [hid, Bool.false_eq_true, if_false] at hh ⊢
            have : y = stored := uniqueHashes_eq huniq hy hmem (hh.trans hprops.1.symm)
            rw [this] at hid
            simp at hid
        · simp only [List.mem_singleton] at hx'
          rw [hx'] at hh
          exact absurd hh hfresh
      have hnone := find_by_token_hash_none db1 (hashToken tok.value) hrevall
      unfold AuthService.refresh
      rw [refreshLookup_of_find_none _ _ _ _ hnone]

/-- **C1 witness.** The store state after the successful first rotation of
`sampleTok` from `[liveRec]`. -/
def c1db1 : List RefreshToken :=
  [{ liveRec with revoked_at := some 10 },
   { id := "t1", token_hash := "rv2", user_id := "u1", family_id := "fam"
     rotated_from := some "t0", expires_at := 604810, revoked_at := none }]

theorem refresh_rejects_rotated_token_witness :
    AuthService.refresh idHash sampleSettings c1db1 sampleTok 20 "t2" "a2" "rv3"
      = (c1db1, .error .unauthorized) :=
  refresh_rejects_rotated_token idHash sampleSettings [liveRec] c1db1 sampleTok
    ⟨"a1", "rv2", "bearer"⟩ 10 20 "t1" "a1" "rv2" "t2" "a2" "rv3"
    (by simp [UniqueHashes]) (by decide) (by rfl)

/-! ## C2 — no at-most-once rotation under concurrency -/

/-- **C2 (code bug).** The repository's `find active by hash, then revoke by
id` sequence is not serialized: `revoke_by_id` updates unconditionally
instead of failing when the row is already revoked, and there is no lock or
conditional update between the two store calls. In the interleaving where
both concurrent `refresh` calls pass the lookup phase on the same store
state before either revokes (the suspension point between the two awaited
repository calls), both calls then complete their rotation successfully:
two successes instead of the specified one success and one `Unauthorized`. -/
theorem refresh_concurrent_double_success :
    refreshLookup idHash [liveRec] sampleTok 10 = .ok ("u1", "", liveRec) ∧
    refreshLookup idHash [liveRec] sampleTok 11 = .ok ("u1", "", liveRec) ∧
    (refreshFinish idHash sampleSettings [liveRec] "u1" liveRec 10
        "tA" "accA" "rvA").2 = .ok ⟨"accA", "rvA", "bearer"⟩ ∧
    (refreshFinish idHash sampleSettings
        (refreshFinish idHash sampleSettings [liveRec] "u1" liveRec 10
          "tA" "accA" "rvA").1
        "u1" liveRec 11 "tB" "accB" "rvB").2 = .ok ⟨"accB", "rvB", "bearer"⟩ := by
  exact ⟨rfl, rfl, rfl, rfl⟩

/-! ## C8 — rotation-chain integrity -/

/-- The store-affecting credential operations of §4.4 driven by clients: a
login (root of a new family, `rotated_from = None`) and a refresh (rotation).
Fresh identifiers and minted token strings travel inside the operation. -/
inductive AuthOp where
  | loginOp (user_id newId family_id accessTok refreshValue : String) (now : Nat)
  | refreshOp (tok : Jwt) (now : Nat) (newId newAccess newRefreshValue : String)

/-- Effect of one operation on the refresh-token store (a failed refresh
leaves the store unchanged). -/
def execOp (hashToken : String → String) (settings : Settings)
    (db : List RefreshToken) : AuthOp → List RefreshToken
  | .loginOp uid nid fam acc rv now =>
      (AuthService.login hashToken settings db uid nid fam acc rv now).1
  | .refreshOp tok now nid acc rv =>
      (AuthService.refresh hashToken settings db tok now nid acc rv).1

/-- The store after a sequence of logins and refreshes, starting empty. -/
def execTrace (hashToken : String → String) (settings : Settings)
    (ops : List AuthOp) : List RefreshToken :=
  ops.foldl (execOp hashToken settings) []

/-- Chain invariant: every record with a `rotated_from` pointer has its
predecessor strictly earlier in the store (so pointers cannot cycle), with
the same `family_id`. -/
def Chained (db : List RefreshToken) : Prop :=
  ∀ i : Fin db.length, ∀ p, (db.get i).rotated_from = some p →
    ∃ j : Fin db.length, j.val < i.val ∧ (db.get j).id = p ∧
      (db.get j).family_id = (db.get i).family_id

/-- Record `i`'s `rotated_from` pointers form a finite (index-decreasing,
hence acyclic) chain that ends at a root record — one with no
`rotated_from` — and every link of the chain stays inside one family. -/
inductive RootedFam : List RefreshToken → Nat → Prop where
  | root (db : List RefreshToken) (i : Fin db.length) :
      (db.get i).rotated_from = none → RootedFam db i.val
  | step (db : List RefreshToken) (i j : Fin db.length) :
      j.val < i.val →
      (db.get i).rotated_from = some ((db.get j).id) →
      (db.get j).family_id = (db.get i).family_id →
      RootedFam db j.val → RootedFam db i.val

theorem revoke_by_id_length (db : List RefreshToken) (tid : String) (t : Nat) :
    (revoke_by_id db tid t).length = db.length := by
  unfold revoke_by_id
  exact List.length_map _ _

/-- `revoke_by_id` only touches `revoked_at`: ids, families and rotation
pointers are untouched, position by position. -/
theorem revoke_by_id_get_fields (db : List RefreshToken) (tid : String)
    (t : Nat) (i : Nat) (h : i < db.length)
    (h' : i < (revoke_by_id db tid t).length) :
    ((revoke_by_id db tid t).get ⟨i, h'⟩).id = (db.get ⟨i, h⟩).id ∧
    ((revoke_by_id db tid t).get ⟨i, h'⟩).family_id = (db.get ⟨i, h⟩).family_id ∧
    ((revoke_by_id db tid t).get ⟨i, h'⟩).rotated_from = (db.get ⟨i, h⟩).rotated_from := by
  unfold revoke_by_id
  simp only [List.get_eq_getElem, List.getElem_map]
  by_cases hid : db[i].id = tid <;> simp [hid]

theorem chained_revoke (db : List RefreshToken) (tid : String) (t : Nat)
    (hc : Chained db) : Chained (revoke_by_id db tid t) := by
  intro i p hip
  have hlen := revoke_by_id_length db tid t
  have hi : i.val < db.length := by rw [← hlen]; exact i.isLt
  obtain ⟨_, hfam, hrot⟩ := revoke_by_id_get_fields db tid t i.val hi i.isLt
  rw [hrot] at hip
  obtain ⟨j, hj, hjid, hjfam⟩ := hc ⟨i.val, hi⟩ p hip
  have hj' : j.val < (revoke_by_id db tid t).length := by
    rw [hlen]; exact j.isLt
  obtain ⟨hid2, hfam2, _⟩ :=
    revoke_by_id_get_fields db tid t j.val j.isLt hj'
  exact ⟨⟨j.val, hj'⟩, hj, by rw [hid2]; exact hjid,
    by rw [hfam2, hfam]; exact hjfam⟩

theorem chained_append_root (db : List RefreshToken) (r : RefreshToken)
    (hc : Chained db) (hr : r.rotated_from = none) : Chained (db ++ [r]) := by
  intro i p hip
  by_cases hi : i.val < db.length
  · have hget : (db ++ [r]).get i = db.get ⟨i.val, hi⟩ := List.get_append _ hi
    rw [hget] at hip
    obtain ⟨j, hj, hjid, hjfam⟩ := hc ⟨i.val, hi⟩ p hip
    have hjlt : j.val < (db ++ [r]).length := by
      simp only [List.length_append, List.length_singleton]
      exact Nat.lt_succ_of_lt j.isLt
    refine ⟨⟨j.val, hjlt⟩, hj, ?_, ?_⟩
    · rw [List.get_append _ j.isLt]
      exact hjid
    · rw [List.get_append _ j.isLt, hget]
      exact hjfam
  · have hieq : i.val = db.length := by
      have := i.isLt
      simp at this
      omega
    have hget : (db ++ [r]).get i = r := by
      have : i = ⟨db.length, by simp⟩ := Fin.ext hieq
      rw [this]
      exact List.get_of_append rfl rfl
    rw [hget, hr] at hip
    cases hip

theorem chained_append_child (db : List RefreshToken) (r : RefreshToken)
    (pid : String) (hc : Chained db)
    (hp : ∃ j : Fin db.length, (db.get j).id = pid ∧ (db.get j).family_id = r.family_id)
    (hr : r.rotated_from = some pid) : Chained (db ++ [r]) := by
  intro i p hip
  by_cases hi : i.val < db.length
  · have hget : (db ++ [r]).get i = db.get ⟨i.val, hi⟩ := List.get_append _ hi
    rw [hget] at hip
    obtain ⟨j, hj, hjid, hjfam⟩ := hc ⟨i.val, hi⟩ p hip
    have hjlt : j.val < (db ++ [r]).length := by
      simp only [List.length_append, List.length_singleton]
      exact Nat.lt_succ_of_lt j.isLt
    refine ⟨⟨j.val, hjlt⟩, hj, ?_, ?_⟩
    · rw [List.get_append _ j.isLt]
      exact hjid
    · rw [List.get_append _ j.isLt, hget]
      exact hjfam
  · have hieq : i.val = db.length := by
      have := i.isLt
      simp at this
      omega
    have hget : (db ++ [r]).get i = r := by
      have : i = ⟨db.length, by simp⟩ := Fin.ext hieq
      rw [this]
      exact List.get_of_append rfl rfl
    rw [hget, hr] at hip
    obtain ⟨j, hjid, hjfam⟩ := hp
    have hp' : pid = p := by injection hip
    have hjlt : j.val < (db ++ [r]).length := by
      simp only [List.length_append, List.length_singleton]
      exact Nat.lt_succ_of_lt j.isLt
    refine ⟨⟨j.val, hjlt⟩, by rw [hieq]; exact j.isLt, ?_, ?_⟩
    · rw [List.get_append _ j.isLt, hjid]
      exact hp'
    · rw [List.get_append _ j.isLt, hget]
      exact hjfam

theorem chained_refresh (hashToken : String → String) (settings : Settings)
    (db : List RefreshToken) (tok : Jwt) (now : Nat)
    (newId newAccess newRefreshValue : String) (hc : Chained db) :
    Chained (AuthService.refresh hashToken settings db tok now
      newId newAccess newRefreshValue).1 := by
  unfold AuthService.refresh
  split
  · exact hc
  · next u em stored hlook =>
    unfold refreshFinish
    split
    · exact hc
    · simp only
      unfold createToken
      apply chained_append_child _ _ stored.id (chained_revoke db stored.id now hc) _ rfl
      have hfind := refreshLookup_ok_find _ _ _ _ _ _ _ hlook
      have hmem := List.mem_of_find?_eq_some hfind
      obtain ⟨j, hj⟩ := List.mem_iff_get.mp hmem
      have hlen := revoke_by_id_length db stored.id now
      have hj' : j.val < (revoke_by_id db stored.id now).length := by
        rw [hlen]; exact j.isLt
      obtain ⟨hid2, hfam2, _⟩ :=
        revoke_by_id_get_fields db stored.id now j.val j.isLt hj'
      exact ⟨⟨j.val, hj'⟩, by rw [hid2, hj], by rw [hfam2, hj]⟩

theorem chained_login (hashToken : String → String) (settings : Settings)
    (db : List RefreshToken) (uid nid fam acc rv : String) (now : Nat)
    (hc : Chained db) :
    Chained (AuthService.login hashToken settings db uid nid fam acc rv now).1 := by
  unfold AuthService.login
  simp only
  unfold createToken
  exact chained_append_root db _ hc rfl

theorem chained_execOp (hashToken : String → String) (settings : Settings)
    (db : List RefreshToken) (op : AuthOp) (hc : Chained db) :
    Chained (execOp hashToken settings db op) := by
  cases op with
  | loginOp uid nid fam acc rv now =>
      exact chained_login hashToken settings db uid nid fam acc rv now hc
  | refreshOp tok now nid acc rv =>
      exact chained_refresh hashToken settings db tok now nid acc rv hc

theorem chained_execTrace (hashToken : String → String) (settings : Settings)
    (ops : List AuthOp) : Chained (execTrace hashToken settings ops) := by
  unfold execTrace
  have hstep : ∀ db, Chained db →
      Chained (ops.foldl (execOp hashToken settings) db) := by
    induction ops with
    | nil => exact fun _ h => h
    | cons op rest ih =>
        exact fun db h => ih _ (chained_execOp hashToken settings db op h)
  exact hstep [] (fun i => i.elim0)

theorem chained_rootedFam (db : List RefreshToken) (hc : Chained db) :
    ∀ n, n < db.length → RootedFam db n := by
  intro n
  induction n using Nat.strong_induction_on with
  | _ n ih =>
    intro h
    cases hro : (db.get ⟨n, h⟩).rotated_from with
    | none => exact .root db ⟨n, h⟩ hro
    | some p =>
      obtain ⟨j, hj, hjid, hjfam⟩ := hc ⟨n, h⟩ p hro
      exact .step db ⟨n, h⟩ j hj (by rw [hro, hjid]) hjfam (ih j.val hj j.isLt)

/-- **C8.** Starting from an empty store and running any sequence of logins
and refreshes, every record's `rotated_from` pointers form a strictly
index-decreasing — hence acyclic — chain that terminates at a root record
(`rotated_from = None`), and every link of the chain preserves `family_id`,
so each refresh-created record belongs to its root's family and points at
the record it replaced (`AuthService.refresh` sets
`rotated_from := stored_token.id` and `family_id := stored_token.family_id`
by construction). -/
theorem rotation_chain_integrity (hashToken : String → String)
    (settings : Settings) (ops : List AuthOp) (i : Nat)
    (hi : i < (execTrace hashToken settings ops).length) :
    RootedFam (execTrace hashToken settings ops) i :=
  chained_rootedFam _ (chained_execTrace hashToken settings ops) i hi

/-- **C8 witness.** A login followed by a successful refresh: the refreshed
record (index 1) is rooted at the login record. -/
theorem rotation_chain_integrity_witness :
    1 < (execTrace idHash sampleSettings
      [.loginOp "u1" "t0" "fam" "acc0" "tokv" 0,
       .refreshOp sampleTok 1 "t1" "acc1" "tok2"]).length ∧
    RootedFam (execTrace idHash sampleSettings
      [.loginOp "u1" "t0" "fam" "acc0" "tokv" 0,
       .refreshOp sampleTok 1 "t1" "acc1" "tok2"]) 1 :=
  ⟨by decide, rotation_chain_integrity idHash sampleSettings
    [.loginOp "u1" "t0" "fam" "acc0" "tokv" 0,
     .refreshOp sampleTok 1 "t1" "acc1" "tok2"] 1 (by decide)⟩

/-! ## C4 — idempotence of `revoke_by_id` -/

/-- **C4 counterexample.** Revoking the same id twice does not leave
`revoked_at` at the first revocation's value: the second call overwrites it
with its own `datetime.now` (`refresh_token.revoked_at = datetime.now(UTC)`
runs unconditionally, even on an already-revoked row). -/
theorem revoke_by_id_twice_overwrites_counterexample :
    (revoke_by_id [sampleRec] "a" 1).map (·.revoked_at) = [some 1] ∧
    (revoke_by_id (revoke_by_id [sampleRec] "a" 1) "a" 2).map (·.revoked_at) = [some 2] ∧
    (some 2 : Option Nat) ≠ some 1 := by
  refine ⟨rfl, rfl, by decide⟩

/-- **C4 (amended).** Calling `revoke_by_id` on the same id twice never
errors and leaves the record revoked, but the second call overwrites
`revoked_at` with its own revocation time: a double revocation equals a
single revocation at the second call's time. -/
theorem revoke_by_id_twice (db : List RefreshToken) (token_id : String)
    (t1 t2 : Nat) :
    revoke_by_id (revoke_by_id db token_id t1) token_id t2
      = revoke_by_id db token_id t2 ∧
    ∀ r ∈ revoke_by_id (revoke_by_id db token_id t1) token_id t2,
      r.id = token_id → r.revoked_at = some t2 := by
  constructor
  · unfold revoke_by_id
    rw [List.map_map]
    apply List.map_congr_left
    intro r _
    by_cases h : r.id = token_id <;> simp [h, Function.comp]
  · intro r hr hid
    unfold revoke_by_id at hr
    obtain ⟨y, _, rfl⟩ := List.mem_map.mp hr
    by_cases h : y.id == token_id <;> simp_all

/-- **C4 witness.** -/
theorem revoke_by_id_twice_witness :
    ({ sampleRec with revoked_at := some 2 } : RefreshToken).revoked_at = some 2 :=
  (revoke_by_id_twice [sampleRec] "a" 1 2).2 _ (by decide) rfl

/-! ## C5 — what `find_by_token_hash` filters -/

/-- **C5 counterexample.** The lookup never consults `expires_at`: a record
whose `expires_at` (here `0`) is already in the past for any positive `now`
(here `5`) is still returned as long as `revoked_at` is null. -/
theorem find_by_token_hash_returns_expired_counterexample :
    find_by_token_hash [expiredRec] "h5" = some expiredRec ∧
    expiredRec.expires_at < 5 ∧ expiredRec.revoked_at = none := by
  refine ⟨rfl, by decide, rfl⟩

/-- **C5 (amended).** `find_by_token_hash` returns a record only if its
`token_hash` matches and its `revoked_at` is null; it never returns a revoked
record, but it does not filter on `expires_at` (the expiry check lives in the
calling service). -/
theorem find_by_token_hash_unrevoked (db : List RefreshToken)
    (token_hash : String) (r : RefreshToken)
    (hfind : find_by_token_hash db token_hash = some r) :
    r.token_hash = token_hash ∧ r.revoked_at = none := by
  have hp := List.find?_some hfind
  simp only [Bool.and_eq_true, beq_iff_eq] at hp
  exact hp

/-- **C5 witness.** -/
theorem find_by_token_hash_unrevoked_witness :
    sampleRec.token_hash = "h" ∧ sampleRec.revoked_at = none :=
  find_by_token_hash_unrevoked [sampleRec] "h" sampleRec rfl

/-! ## C9 — ID-token claim gating -/

/-- **C9 counterexample.** A code exchanged with scope exactly `"openid"`
(no `email` scope) still yields an ID token carrying the `email` claim:
`_create_id_token` puts `email`/`email_verified` into the base payload
unconditionally. -/
theorem id_token_email_without_email_scope_counterexample :
    strIn "email" "openid" = false ∧
    (create_id_token sampleSettings sampleUser sampleClient "openid" 0).map (·.email)
      = some (some "u1@example.com") := by
  refine ⟨by decide, rfl⟩

/-- **C9 (amended).** An ID token is issued iff the scope string contains
`"openid"`; it carries `iss`, `sub`, `aud = client_id`, `iat`, `exp`, and the
profile claims (`name`, `preferred_username`) exactly when the `profile`
scope was requested and the user has a nonempty username — but the
`email`/`email_verified` claims are always present, regardless of the
`email` scope. -/
theorem create_id_token_claims (settings : Settings) (user : User)
    (client : OAuth2Client) (scopes : String) (now : Nat) :
    (create_id_token settings user client scopes now = none
      ↔ strIn "openid" scopes = false) ∧
    ∀ claims, create_id_token settings user client scopes now = some claims →
      claims.iss = settings.issuer ∧ claims.sub = user.id ∧
      claims.aud = client.client_id ∧ claims.iat = now ∧
      claims.exp = now + settings.access_token_expire_minutes * 60 ∧
      claims.email = some user.email ∧
      claims.email_verified = some user.is_verified ∧
      claims.name = (if strIn "profile" scopes = true ∧ user.username.getD "" ≠ ""
        then user.username else none) ∧
      claims.preferred_username = claims.name := by
  unfold create_id_token
  by_cases ho : strIn "openid" scopes = false <;>
    by_cases hp : strIn "profile" scopes = true ∧ user.username.getD "" ≠ "" <;>
    by_cases he : strIn "email" scopes = true <;>
    simp [ho, hp, he]

/-- **C9 witness.** -/
theorem create_id_token_claims_witness :
    ({ iss := "https://idp.example.com", sub := "u1", aud := "client-1"
       exp := 1805, iat := 5, email := some "u1@example.com"
       email_verified := some true, name := none
       preferred_username := none } : IdTokenClaims).email = some sampleUser.email :=
  ((create_id_token_claims sampleSettings sampleUser sampleClient "openid" 5).2
    _ (by decide)).2.2.2.2.2.1

/-! ## Exchange helper lemmas and sample exchange data -/

/-- A record found by code carries that code. -/
theorem find_by_code_code (cs : List AuthorizationCode) (c : String)
    (ac : AuthorizationCode) (h : find_by_code cs c = some ac) : ac.code = c := by
  have hp := List.find?_some h
  simpa [beq_iff_eq] using hp

/-- After `mark_as_used` (a Redis `DELETE` of the code's key), the code can
no longer be found. -/
theorem find_by_code_mark_as_used (cs : List AuthorizationCode)
    (ac : AuthorizationCode) :
    find_by_code (mark_as_used cs ac) ac.code = none := by
  unfold find_by_code mark_as_used
  apply List.find?_eq_none.mpr
  intro x hx
  have hne := (List.mem_filter.mp hx).2
  simp only [decide_eq_true_eq] at hne
  simp [hne]

/-- A successful validation phase implies the presented code was nonempty and
was found in the store, and the returned record is the found one. -/
theorem exchangeValidate_ok_find (s256 : String → String)
    (clients : List OAuth2Client) (codeStore : List AuthorizationCode)
    (dto : TokenRequestDto) (now : Nat) (cl : OAuth2Client)
    (ac : AuthorizationCode)
    (h : exchangeValidate s256 clients codeStore dto now = .ok (cl, ac)) :
    dto.code.getD "" ≠ "" ∧ find_by_code codeStore (dto.code.getD "") = some ac := by
  unfold exchangeValidate at h
  split at h
  · simp at h
  · split at h
    · simp at h
    · next hcode =>
      split at h
      · simp at h
      · next client hcl =>
        split at h
        · simp at h
        · next auth_code hfind =>
          refine ⟨hcode, ?_⟩
          split at h
          · simp at h
          · split at h
            · simp at h
            · split at h
              · simp at h
              · split at h
                · simp at h
                · split at h
                  · split at h
                    · simp at h
                    · split at h
                      · simp at h
                      · simp only [Except.ok.injEq, Prod.mk.injEq] at h
                        rw [hfind, h.2]
                  · simp only [Except.ok.injEq, Prod.mk.injEq] at h
                    rw [hfind, h.2]

/-- The stored authorization code used by the exchange samples (10-minute
expiry horizon `600`, no PKCE). -/
def sampleAuthCode : AuthorizationCode :=
  { id := "ac1", code := "code1", client_id := "client-1", user_id := "u1"
    redirect_uri := "https://app.example.com/cb", scopes := "openid"
    code_challenge := none, code_challenge_method := none, state := none
    expires_at := 600, is_used := false }

/-- Fresh ids/tokens minted during the sample exchange. -/
def sampleFresh : ExchangeFresh :=
  { refreshRecordId := "rid1", familyId := "fam1"
    accessTokenValue := "at1", refreshTokenValue := "rt1" }

/-- A well-formed token request for `sampleAuthCode` (redirect omitted). -/
def baseDto : TokenRequestDto :=
  { grant_type := "authorization_code", code := some "code1"
    redirect_uri := none, client_id := "client-1"
    client_secret := some "s3cret", code_verifier := none }

/-- The refresh-token row persisted by the successful sample exchange at
`now = 10` (under `idHash`). -/
def c3newRec : RefreshToken :=
  { id := "rid1", token_hash := "rt1", user_id := "u1", family_id := "fam1"
    rotated_from := none, expires_at := 604810, revoked_at := none }

/-- The ID-token claims of the successful sample exchange at `now = 10`. -/
def c3idToken : IdTokenClaims :=
  { iss := "https://idp.example.com", sub := "u1", aud := "client-1"
    exp := 1810, iat := 10, email := some "u1@example.com"
    email_verified := some true, name := none, preferred_username := none }

/-- The response of the successful sample exchange at `now = 10`. -/
def c3resp : TokenResponseDto :=
  { access_token := "at1", token_type := "Bearer", expires_in := 1800
    refresh_token := some "rt1", scope := some "openid"
    id_token := some c3idToken }

/-! ## C3 — authorization-code single use -/

/-- **C3.** After one successful `exchange_code_for_tokens` consumed a code
(`mark_as_used` deletes its Redis key), any later exchange presenting the
same code value — with a well-formed grant and a verifiable client, the
checks that precede the code lookup — raises `Unauthorized` and changes
nothing: the code is redeemed at most once and can never be found again. -/
theorem exchange_code_single_use (hashToken s256 : String → String)
    (settings : Settings) (clients : List OAuth2Client) (users : List User)
    (codeStore : List AuthorizationCode) (refreshDb : List RefreshToken)
    (dto1 dto2 : TokenRequestDto) (now1 now2 : Nat) (f1 f2 : ExchangeFresh)
    (cs1 : List AuthorizationCode) (rd1 : List RefreshToken)
    (resp : TokenResponseDto) (client2 : OAuth2Client)
    (h1 : SSOService.exchange_code_for_tokens hashToken s256 settings clients
            users codeStore refreshDb dto1 now1 f1 = (cs1, rd1, .ok resp))
    (hsame : dto2.code = dto1.code)
    (hg : dto2.grant_type = "authorization_code")
    (hcl : verify_client_secret clients dto2.client_id dto2.client_secret
            = .ok client2) :
    SSOService.exchange_code_for_tokens hashToken s256 settings clients users
      cs1 rd1 dto2 now2 f2 = (cs1, rd1, .error .unauthorized) := by
  unfold SSOService.exchange_code_for_tokens at h1
  split at h1
  · simp at h1
  · next client ac hval =>
    split at h1
    · simp at h1
    · next user huser =>
      simp only [Prod.mk.injEq] at h1
      obtain ⟨hne, hfind⟩ := exchangeValidate_ok_find _ _ _ _ _ _ _ hval
      have hac : ac.code = dto1.code.getD "" := find_by_code_code _ _ _ hfind
      have hfind2 : find_by_code cs1 (dto1.code.getD "") = none := by
        rw [← h1.1, ← hac]
        exact find_by_code_mark_as_used codeStore ac
      unfold SSOService.exchange_code_for_tokens exchangeValidate
      rw [hsame]
      simp [hg, hcl, hfind2, hne]

/-- **C3 witness.** -/
theorem exchange_code_single_use_witness :
    SSOService.exchange_code_for_tokens idHash idHash sampleSettings
      [sampleClient] [sampleUser] [] [c3newRec] baseDto 20 sampleFresh
      = ([], [c3newRec], .error .unauthorized) :=
  exchange_code_single_use idHash idHash sampleSettings [sampleClient]
    [sampleUser] [sampleAuthCode] [] baseDto baseDto 10 20 sampleFresh
    sampleFresh [] [c3newRec] c3resp sampleClient (by rfl) rfl rfl (by rfl)

/-! ## C7 — redirect-URI mismatch error class -/

/-- The mismatching token request of the C7 counterexample: identical to
`baseDto` but presenting a different, nonempty `redirect_uri`. -/
def c7dto : TokenRequestDto :=
  { baseDto with redirect_uri := some "https://evil.example.com/cb" }

/-- **C7 counterexample.** A token request whose presented `redirect_uri`
differs from the one stored with the code fails with `BadRequest`
(`"Redirect URI mismatch"`), not `Unauthorized` — matching §7's taxonomy and
§8's 400 scenario, and refuting the claim's `Unauthorized`. -/
theorem redirect_mismatch_counterexample :
    SSOService.exchange_code_for_tokens idHash idHash sampleSettings
      [sampleClient] [sampleUser] [sampleAuthCode] [] c7dto 10 sampleFresh
      = ([sampleAuthCode], [], .error .badRequest) ∧
    AppError.badRequest ≠ AppError.unauthorized := by
  exact ⟨rfl, by decide⟩

/-- **C7 (amended).** When the presented `redirect_uri` is nonempty and
differs from the stored one (and the request survives the earlier checks),
`exchange_code_for_tokens` fails with `BadRequest` — not `Unauthorized` —
and leaves both stores unchanged. -/
theorem redirect_mismatch_badRequest (hashToken s256 : String → String)
    (settings : Settings) (clients : List OAuth2Client) (users : List User)
    (codeStore : List AuthorizationCode) (refreshDb : List RefreshToken)
    (dto : TokenRequestDto) (now : Nat) (fresh : ExchangeFresh)
    (client : OAuth2Client) (ac : AuthorizationCode)
    (hg : dto.grant_type = "authorization_code")
    (hcode : dto.code.getD "" ≠ "")
    (hcl : verify_client_secret clients dto.client_id dto.client_secret = .ok client)
    (hfind : find_by_code codeStore (dto.code.getD "") = some ac)
    (hexp : ¬ ac.expires_at < now)
    (hused : ac.is_used = false)
    (hmatch : ac.client_id = dto.client_id)
    (hpres : dto.redirect_uri.getD "" ≠ "")
    (hmis : ac.redirect_uri ≠ dto.redirect_uri.getD "") :
    SSOService.exchange_code_for_tokens hashToken s256 settings clients users
      codeStore refreshDb dto now fresh
      = (codeStore, refreshDb, .error .badRequest) := by
  unfold SSOService.exchange_code_for_tokens exchangeValidate
  simp [hg, hcode, hcl, hfind, hexp, hused, hmatch, hpres, hmis]

/-- **C7 witness.** -/
theorem redirect_mismatch_badRequest_witness :
    SSOService.exchange_code_for_tokens idHash idHash sampleSettings
      [sampleClient] [sampleUser] [sampleAuthCode] [] c7dto 10 sampleFresh
      = ([sampleAuthCode], [], .error .badRequest) :=
  redirect_mismatch_badRequest idHash idHash sampleSettings [sampleClient]
    [sampleUser] [sampleAuthCode] [] c7dto 10 sampleFresh sampleClient
    sampleAuthCode rfl (by decide) (by rfl) (by rfl) (by decide) rfl rfl
    (by decide) (by decide)

/-! ## C10 — the redirect check only runs when a redirect is presented -/

/-- **C10.** When the token request omits `redirect_uri` (`None` or empty —
both falsy in `if dto.redirect_uri`), no stored-versus-presented comparison
happens at all: the exchange succeeds with no hypothesis whatsoever on the
`redirect_uri` stored with the code. -/
theorem omitted_redirect_skips_check (hashToken s256 : String → String)
    (settings : Settings) (clients : List OAuth2Client) (users : List User)
    (codeStore : List AuthorizationCode) (refreshDb : List RefreshToken)
    (dto : TokenRequestDto) (now : Nat) (fresh : ExchangeFresh)
    (client : OAuth2Client) (ac : AuthorizationCode) (user : User)
    (hg : dto.grant_type = "authorization_code")
    (hcode : dto.code.getD "" ≠ "")
    (hcl : verify_client_secret clients dto.client_id dto.client_secret = .ok client)
    (hfind : find_by_code codeStore (dto.code.getD "") = some ac)
    (hexp : ¬ ac.expires_at < now)
    (hused : ac.is_used = false)
    (hmatch : ac.client_id = dto.client_id)
    (hnored : dto.redirect_uri.getD "" = "")
    (hnopkce : ac.code_challenge.getD "" = "")
    (huser : get_user_by_id users ac.user_id = .ok user) :
    (SSOService.exchange_code_for_tokens hashToken s256 settings clients users
        codeStore refreshDb dto now fresh).2.2
      = .ok { access_token := fresh.accessTokenValue, token_type := "Bearer"
              expires_in := settings.access_token_expire_minutes * 60
              refresh_token := some fresh.refreshTokenValue
              scope := some ac.scopes
              id_token := create_id_token settings user client ac.scopes now } := by
  unfold SSOService.exchange_code_for_tokens exchangeValidate
  simp [hg, hcode, hcl, hfind, hexp, hused, hmatch, hnored, hnopkce, huser]

/-- **C10 witness.** The stored code carries a nonempty `redirect_uri`, the
request presents none, and the exchange still succeeds. -/
theorem omitted_redirect_skips_check_witness :
    sampleAuthCode.redirect_uri ≠ "" ∧
    (SSOService.exchange_code_for_tokens idHash idHash sampleSettings
        [sampleClient] [sampleUser] [sampleAuthCode] [] baseDto 10
        sampleFresh).2.2 = .ok c3resp :=
  ⟨by decide,
   omitted_redirect_skips_check idHash idHash sampleSettings [sampleClient]
     [sampleUser] [sampleAuthCode] [] baseDto 10 sampleFresh sampleClient
     sampleAuthCode sampleUser rfl (by decide) (by rfl) (by rfl) (by decide)
     rfl rfl rfl rfl (by rfl)⟩

/-! ## C6 — PKCE S256 round trip -/

/-- **C6.** For a code stored with method `S256` and
`code_challenge = s256 verifier` (the unpadded-base64url-SHA256 pipeline),
once the request survives the checks preceding PKCE: a missing verifier
fails the exchange (`BadRequest`, "code_verifier is required for PKCE"); any
presented verifier whose recomputed digest differs from the stored challenge
fails with `Unauthorized`; and presenting the original verifier passes PKCE
and the exchange succeeds. -/
theorem pkce_s256_round_trip (hashToken s256 : String → String)
    (settings : Settings) (clients : List OAuth2Client) (users : List User)
    (codeStore : List AuthorizationCode) (refreshDb : List RefreshToken)
    (dto : TokenRequestDto) (now : Nat) (fresh : ExchangeFresh)
    (client : OAuth2Client) (ac : AuthorizationCode) (user : User)
    (verifier : String)
    (hg : dto.grant_type = "authorization_code")
    (hcode : dto.code.getD "" ≠ "")
    (hcl : verify_client_secret clients dto.client_id dto.client_secret = .ok client)
    (hfind : find_by_code codeStore (dto.code.getD "") = some ac)
    (hexp : ¬ ac.expires_at < now)
    (hused : ac.is_used = false)
    (hmatch : ac.client_id = dto.client_id)
    (hred : ¬(dto.redirect_uri.getD "" ≠ "" ∧ ac.redirect_uri ≠ dto.redirect_uri.getD ""))
    (hch : ac.code_challenge = some (s256 verifier))
    (hchne : s256 verifier ≠ "")
    (hmeth : ac.code_challenge_method = some "S256")
    (hvne : verifier ≠ "")
    (huser : get_user_by_id users ac.user_id = .ok user) :
    (SSOService.exchange_code_for_tokens hashToken s256 settings clients users
        codeStore refreshDb { dto with code_verifier := none } now fresh).2.2
      = .error .badRequest ∧
    (∀ v, v ≠ "" → s256 v ≠ s256 verifier →
      (SSOService.exchange_code_for_tokens hashToken s256 settings clients users
          codeStore refreshDb { dto with code_verifier := some v } now fresh).2.2
        = .error .unauthorized) ∧
    (SSOService.exchange_code_for_tokens hashToken s256 settings clients users
        codeStore refreshDb { dto with code_verifier := some verifier } now fresh).2.2
      = .ok { access_token := fresh.accessTokenValue, token_type := "Bearer"
              expires_in := settings.access_token_expire_minutes * 60
              refresh_token := some fresh.refreshTokenValue
              scope := some ac.scopes
              id_token := create_id_token settings user client ac.scopes now } := by
  refine ⟨?_, ?_, ?_⟩
  · unfold SSOService.exchange_code_for_tokens exchangeValidate
    simp [hg, hcode, hcl, hfind, hexp, hused, hmatch, hred, hch, hchne]
  · intro v hv hvne2
    unfold SSOService.exchange_code_for_tokens exchangeValidate
    simp [hg, hcode, hcl, hfind, hexp, hused, hmatch, hred, hch, hchne, hv,
      pkceChallenge, hmeth, hvne2]
  · unfold SSOService.exchange_code_for_tokens exchangeValidate
    simp [hg, hcode, hcl, hfind, hexp, hused, hmatch, hred, hch, hchne,
      pkceChallenge, hmeth, hvne, huser]

/-- The stored authorization code of the C6 witness: PKCE `S256` with
challenge `idHash "ver" = "ver"`. -/
def pkceAuthCode : AuthorizationCode :=
  { sampleAuthCode with
      code := "code2"
      code_challenge := some "ver"
      code_challenge_method := some "S256" }

/-- The C6 witness request (before the verifier is filled in). -/
def c6dto : TokenRequestDto := { baseDto with code := some "code2" }

/-- **C6 witness.** -/
theorem pkce_s256_round_trip_witness :
    (SSOService.exchange_code_for_tokens idHash idHash sampleSettings
        [sampleClient] [sampleUser] [pkceAuthCode] []
        { c6dto with code_verifier := none } 10 sampleFresh).2.2
      = .error .badRequest ∧
    (SSOService.exchange_code_for_tokens idHash idHash sampleSettings
        [sampleClient] [sampleUser] [pkceAuthCode] []
        { c6dto with code_verifier := some "wrong" } 10 sampleFresh).2.2
      = .error .unauthorized ∧
    (SSOService.exchange_code_for_tokens idHash idHash sampleSettings
        [sampleClient] [sampleUser] [pkceAuthCode] []
        { c6dto with code_verifier := some "ver" } 10 sampleFresh).2.2
      = .ok c3resp := by
  have h := pkce_s256_round_trip idHash idHash sampleSettings [sampleClient]
    [sampleUser] [pkceAuthCode] [] c6dto 10 sampleFresh sampleClient
    pkceAuthCode sampleUser "ver" rfl (by decide) (by rfl) (by rfl)
    (by decide) rfl rfl (by decide) rfl (by decide) rfl (by decide) (by rfl)
  exact ⟨h.1, h.2.1 "wrong" (by decide) (by decide), h.2.2⟩

end IdP
